import Mathlib

/-!
# Verification of the yaps.chat client against its specification

Shallow embedding of the client code of yaps.chat: the group-code input
normalization (`src/app/components/layout/chat-options.tsx`), the chat
WebSocket hook (`src/hooks/use-chat-web-sockets.tsx`), the WebRTC signaling
helpers (`src/app/components/video-chat/webrtc-events.ts`) and the crypto
module (`src/lib/crypto.ts`).

JavaScript conventions used throughout the embedding:
* `undefined`/`null` valued variables and optional object fields are
  modelled with `Option`; a field serialized by `JSON.stringify` is absent
  from the wire frame exactly when its value is `undefined`, which the
  embedding renders as `none`.
* JavaScript truthiness on strings (`""` is falsy) is modelled explicitly
  wherever the source relies on it.
* JS strings are modelled as Lean `String`; `s.substring(a, b)` (with
  `a ≤ b`, the only way it is used here) is modelled by `jsSubstring`.
* Byte buffers (`Buffer` / `ArrayBuffer` / `Uint8Array`) are modelled as
  `List Nat` with every element `< 256`.
-/

namespace YapsChat

/-- The character class `[a-zA-Z0-9]` of the JS regexes in
`chat-options.tsx` (`/[^a-zA-Z0-9]/g` and `/^[a-zA-Z0-9]{6}$/`). -/
def isAlnumJs (c : Char) : Bool :=
  (97 ≤ c.toNat && c.toNat ≤ 122) ||
  (65 ≤ c.toNat && c.toNat ≤ 90) ||
  (48 ≤ c.toNat && c.toNat ≤ 57)

/-- `s.replace(/[^a-zA-Z0-9]/g, '')`: drop every character outside
`[a-zA-Z0-9]`. -/
def stripNonAlnum (s : String) : String :=
  ⟨s.data.filter isAlnumJs⟩

/-- `String.prototype.substring(a, b)` for `a ≤ b` (the only usage pattern
in this codebase): the characters from index `a` (inclusive) to `b`
(exclusive), clamped to the string length. -/
def jsSubstring (s : String) (a b : Nat) : String :=
  ⟨(s.data.drop a).take (b - a)⟩

/-- `String.prototype.includes(sub)`: `sub` occurs contiguously in `s`. -/
def jsIncludes (s sub : String) : Bool :=
  s.data.tails.any fun t => sub.data.isPrefixOf t

/-- `String.prototype.startsWith(pre)`. -/
def jsStartsWith (s pre : String) : Bool :=
  pre.data.isPrefixOf s.data

/-- Split a character list at the first occurrence of `sep`, returning the
parts before and after it; `none` when `sep` does not occur. -/
def splitFirst (sep : List Char) : List Char → Option (List Char × List Char)
  | [] => if sep.isEmpty then some ([], []) else none
  | c :: rest =>
    if sep.isPrefixOf (c :: rest) then some ([], List.drop sep.length (c :: rest))
    else (splitFirst sep rest).map fun p => (c :: p.1, p.2)

/-- Model of the WHATWG `new URL(input).pathname` lookup used by
`extractCodeFromInput` for inputs containing `"://"`: everything from the
first `/` after the host up to (excluding) a `?` or `#`, defaulting to
`"/"`; `none` models the constructor throwing (empty scheme).  Only the
branch structure matters to the claims below, none of which exercise the
URL path. -/
def urlPathname (input : String) : Option String :=
  match splitFirst "://".data input.data with
  | none => none
  | some (scheme, after) =>
    if scheme = [] then none
    else
      let fromSlash := after.dropWhile (fun c => c != '/')
      let path := fromSlash.takeWhile (fun c => c != '?' && c != '#')
      some (if path = [] then "/" else ⟨path⟩)

/-- The final element of `pathname.split("/")`: the characters after the
last `/` of the pathname (the whole pathname when it has no `/`). -/
def lastPathSegment (pathname : String) : String :=
  ⟨(pathname.data.reverse.takeWhile (fun c => c != '/')).reverse⟩

/-- `extractCodeFromInput` from `chat-options.tsx` (lines 45–61).  `none`
models the function throwing (only possible from `new URL`). -/
def extractCodeFromInput (input : String) : Option String :=
  if jsIncludes input "://" then
    (urlPathname input).map fun pathname =>
      jsSubstring (lastPathSegment pathname) 0 6
  else if jsStartsWith input "/" then
    some (jsSubstring input 1 7)
  else
    some (jsSubstring input 0 6)

/-- The group-code `Input` `onChange` handler from `chat-options.tsx`
(lines 74–87): sanitize `extractCodeFromInput` output; on an exception,
sanitize the raw input (the `catch` branch). -/
def onChangeGroupCode (value : String) : String :=
  match extractCodeFromInput value with
  | some code => jsSubstring (stripNonAlnum code) 0 6
  | none => jsSubstring (stripNonAlnum value) 0 6

/-- `GroupJoinMethod` from `src/lib/types/chat.ts`. -/
inductive GroupJoinMethod where
  | create
  | join
deriving DecidableEq, Repr

/-- The test `/^[a-zA-Z0-9]{6}$/.test(s)`: exactly six characters, all in
`[a-zA-Z0-9]`. -/
def regexAlnum6 (s : String) : Bool :=
  s.length == 6 && s.data.all isAlnumJs

/-- `handleJoinByCode` from `chat-options.tsx` (lines 17–37): validate the
current group code and either initiate a join (modelled as
`some (join, code)`, the call `onStartGroupChat("join", groupCode)`) or
show a toast and return (`none`). -/
def handleJoinByCode (groupCode : String) : Option (GroupJoinMethod × String) :=
  if groupCode = "" ∨ groupCode.length ≠ 6 ∨ ¬ regexAlnum6 groupCode then
    none
  else
    some (GroupJoinMethod.join, groupCode)

/-! ### UTF-8 and base64 byte codecs

`Buffer.from(s, 'utf8')`, `buffer.toString('utf8')` (and `TextDecoder`),
`buffer.toString('base64')` and `Buffer.from(s, 'base64')` as used by
`src/lib/crypto.ts` and `use-chat-web-sockets.tsx`.  `decodeUtf8` recurses
on an explicit fuel bounded by the buffer length so that every definition
evaluates by kernel reduction. -/

def isCont (b : Nat) : Bool := 0x80 ≤ b && b < 0xC0

def encodeCharNat (n : Nat) : List Nat :=
  if n < 0x80 then [n]
  else if n < 0x800 then [0xC0 + n / 64, 0x80 + n % 64]
  else if n < 0x10000 then
    [0xE0 + n / 4096, 0x80 + n / 64 % 64, 0x80 + n % 64]
  else
    [0xF0 + n / 262144, 0x80 + n / 4096 % 64, 0x80 + n / 64 % 64, 0x80 + n % 64]

def decodeOne : List Nat → Option (Nat × List Nat)
  | [] => none
  | b :: rest =>
    if b < 0x80 then some (b, rest)
    else if b < 0xC0 then none
    else if b < 0xE0 then
      match rest with
      | b1 :: r =>
        if isCont b1 then some ((b - 0xC0) * 64 + (b1 - 0x80), r) else none
      | [] => none
    else if b < 0xF0 then
      match rest with
      | b1 :: b2 :: r =>
        if isCont b1 && isCont b2 then
          some ((b - 0xE0) * 4096 + (b1 - 0x80) * 64 + (b2 - 0x80), r)
        else none
      | _ => none
    else if b < 0xF8 then
      match rest with
      | b1 :: b2 :: b3 :: r =>
        if isCont b1 && isCont b2 && isCont b3 then
          some ((b - 0xF0) * 262144 + (b1 - 0x80) * 4096 + (b2 - 0x80) * 64 + (b3 - 0x80), r)
        else none
      | _ => none
    else none

def decodeUtf8Aux : Nat → List Nat → Option (List Nat)
  | _, [] => some []
  | 0, _ :: _ => none
  | fuel + 1, b :: rest =>
    (decodeOne (b :: rest)).bind fun pr => (decodeUtf8Aux fuel pr.2).map fun l => pr.1 :: l

def decodeUtf8 (l : List Nat) : Option (List Nat) :=
  decodeUtf8Aux l.length l

def utf8Encode (s : String) : List Nat :=
  (s.data.map fun c => encodeCharNat c.toNat).flatten

def utf8ToString (l : List Nat) : String :=
  match decodeUtf8 l with
  | some cps => ⟨cps.map Char.ofNat⟩
  | none => ""


def sextetChar (n : Nat) : Char :=
  if n < 26 then Char.ofNat (65 + n)
  else if n < 52 then Char.ofNat (97 + (n - 26))
  else if n < 62 then Char.ofNat (48 + (n - 52))
  else if n = 62 then '+'
  else '/'

def charSextet (c : Char) : Option Nat :=
  if 65 ≤ c.toNat ∧ c.toNat ≤ 90 then some (c.toNat - 65)
  else if 97 ≤ c.toNat ∧ c.toNat ≤ 122 then some (26 + (c.toNat - 97))
  else if 48 ≤ c.toNat ∧ c.toNat ≤ 57 then some (52 + (c.toNat - 48))
  else if c.toNat = 43 then some 62
  else if c.toNat = 47 then some 63
  else none

def b64encode : List Nat → List Char
  | [] => []
  | [a] => [sextetChar (a / 4), sextetChar (a % 4 * 16), '=', '=']
  | [a, b] =>
    [sextetChar (a / 4), sextetChar (a % 4 * 16 + b / 16), sextetChar (b % 16 * 4), '=']
  | a :: b :: c :: rest =>
    sextetChar (a / 4) :: sextetChar (a % 4 * 16 + b / 16) ::
      sextetChar (b % 16 * 4 + c / 64) :: sextetChar (c % 64) :: b64encode rest

def b64decode : List Char → Option (List Nat)
  | [] => some []
  | c1 :: c2 :: c3 :: c4 :: rest =>
    (charSextet c1).bind fun s1 =>
    (charSextet c2).bind fun s2 =>
    if c3 = '=' then
      if c4 = '=' ∧ rest = [] then some [s1 * 4 + s2 / 16] else none
    else
      (charSextet c3).bind fun s3 =>
      if c4 = '=' then
        if rest = [] then some [s1 * 4 + s2 / 16, s2 % 16 * 16 + s3 / 4] else none
      else
        (charSextet c4).bind fun s4 =>
        (b64decode rest).map fun r =>
          (s1 * 4 + s2 / 16) :: (s2 % 16 * 16 + s3 / 4) :: (s3 % 4 * 64 + s4) :: r
  | _ => none


/-! ### Crypto module (`src/lib/crypto.ts`)

`encryptMessage`/`decryptMessage` wrap Node's AES-256-GCM
(`createCipheriv` / `createDecipheriv`), an opaque library primitive.  The
model keeps exactly the structure the source manipulates: a 12-byte random
nonce, a CTR keystream XORed over the payload identically in both
directions, and a 16-byte auth tag that is a deterministic digest of key,
nonce and ciphertext, recomputed and compared on decryption
(`decipher.setAuthTag` + `final`).  The keystream and tag digests are
concrete stand-ins for the cipher internals; no theorem below depends on
their values, only on their determinism. -/

/-- Byte `i` of the modelled AES-256-CTR keystream under `key`/`nonce`. -/
def keystreamByte (key nonce : List Nat) (i : Nat) : Nat :=
  (key.sum * 131 + nonce.sum * 31 + i * 17 + 7) % 256

/-- `cipher.update`/`cipher.final` (and identically `decipher.update`/
`decipher.final`): XOR the buffer with the keystream from position `i`. -/
def ctrXor (key nonce : List Nat) : Nat → List Nat → List Nat
  | _, [] => []
  | i, b :: rest => (b ^^^ keystreamByte key nonce i) :: ctrXor key nonce (i + 1) rest

/-- The 16-byte GCM auth tag `cipher.getAuthTag()`: a deterministic digest
of key, nonce and ciphertext (GHASH is part of the opaque primitive). -/
def authTag (key nonce ct : List Nat) : List Nat :=
  (List.range 16).map fun i =>
    (key.sum * 7 + nonce.sum * 13 + ct.sum * 3 + ct.length * 29 + i * 41 + 5) % 256

/-- Value of a hexadecimal digit character; `none` otherwise. -/
def hexVal (c : Char) : Option Nat :=
  if 48 ≤ c.toNat ∧ c.toNat ≤ 57 then some (c.toNat - 48)
  else if 97 ≤ c.toNat ∧ c.toNat ≤ 102 then some (c.toNat - 97 + 10)
  else if 65 ≤ c.toNat ∧ c.toNat ≤ 70 then some (c.toNat - 65 + 10)
  else none

/-- `Buffer.from(key, 'hex')` on an even-length string; `none` when a
non-hex character occurs (Node instead truncates at the bad pair, after
which `createCipheriv` rejects the short key — the same observable
failure). -/
def hexDecode : List Char → Option (List Nat)
  | [] => some []
  | [_] => none
  | c1 :: c2 :: rest =>
    (hexVal c1).bind fun h1 =>
    (hexVal c2).bind fun h2 =>
    (hexDecode rest).map fun r => (h1 * 16 + h2) :: r

/-- `getEncryptionKey` (crypto.ts lines 5–21): read `CRYPTO_KEY` from the
environment; missing or empty key throws (`none`); 64 chars → hex decode,
32 chars → UTF-8 bytes, other lengths throw. -/
def getEncryptionKey (cryptoKeyEnv : Option String) : Option (List Nat) :=
  match cryptoKeyEnv with
  | none => none
  | some key =>
    if key = "" then none
    else if key.length = 64 then hexDecode key.data
    else if key.length = 32 then some (utf8Encode key)
    else none

/-- The `string | ArrayBuffer` message argument of `encryptMessage` and
`sendMessage`. -/
inductive JsData where
  | str (s : String)
  | buf (bytes : List Nat)
deriving DecidableEq, Repr

/-- The `inputBuffer` conversion in `encryptMessage` (lines 36–43):
`Buffer.from(message, 'utf8')` for strings, the raw bytes for an
`ArrayBuffer`. -/
def toBuffer : JsData → List Nat
  | .str s => utf8Encode s
  | .buf b => b

/-- The `{encrypted, nonce}` envelope returned by `encryptMessage`. -/
structure EncryptedData where
  encrypted : String
  nonce : String
deriving DecidableEq, Repr

/-- `randomBytes(n)`: modelled by drawing from a caller-supplied entropy
list, clamped to bytes and padded so the result always has length `n`. -/
def randomBytesM (n : Nat) (entropy : List Nat) : List Nat :=
  ((entropy.map fun b => b % 256) ++ List.replicate n 0).take n

/-- `encryptMessage` (crypto.ts lines 24–63): AES-256-GCM under the
environment key with a fresh 12-byte nonce; the returned `encrypted`
field is base64 of ciphertext ‖ auth tag, `nonce` is base64 of the nonce.
`none` models a throw (missing or non-32-byte key). -/
def encryptMessage (cryptoKeyEnv : Option String) (entropy : List Nat) (message : JsData) :
    Option EncryptedData :=
  let nonce := randomBytesM 12 entropy
  match getEncryptionKey cryptoKeyEnv with
  | none => none
  | some key =>
    if key.length ≠ 32 then none
    else
      let encryptedBuffer := ctrXor key nonce 0 (toBuffer message)
      let tag := authTag key nonce encryptedBuffer
      some { encrypted := ⟨b64encode (encryptedBuffer ++ tag)⟩, nonce := ⟨b64encode nonce⟩ }

/-- `decryptMessage` (crypto.ts lines 66–94): base64-decode the envelope,
split off the last 16 bytes as the auth tag, and decrypt the remainder
with the same key and nonce; `none` models a throw (malformed base64 under
this model, bad key, or `decipher.final()` failing authentication). -/
def decryptMessage (cryptoKeyEnv : Option String) (data : EncryptedData) : Option (List Nat) :=
  match b64decode data.encrypted.data, b64decode data.nonce.data with
  | some encryptedBuffer, some nonce =>
    let tag := encryptedBuffer.drop (encryptedBuffer.length - 16)
    let encryptedMessage := encryptedBuffer.take (encryptedBuffer.length - 16)
    (match getEncryptionKey cryptoKeyEnv with
     | none => none
     | some key =>
       if key.length ≠ 32 then none
       else if authTag key nonce encryptedMessage = tag then
         some (ctrXor key nonce 0 encryptedMessage)
       else none)
  | _, _ => none

/-! ### Chat hook model (`src/hooks/use-chat-web-sockets.tsx`)

The `useChat` hook's React state is a record; each handler is a function
from state (plus the event payload and the effect parameters `uuidv4()`,
`Date.now()`, entropy) to state, returning also the list of wire frames
it sends, in order. -/

/-- `WebSocket.readyState`; `opened` models `WebSocket.OPEN` (`open` is a
Lean keyword). -/
inductive ReadyState where
  | connecting
  | opened
  | closing
  | closed
deriving DecidableEq, Repr

/-- The WebSocket object, as far as the embedded code observes it. -/
structure WSocket where
  readyState : ReadyState
deriving DecidableEq, Repr

/-- `Preference` from `src/lib/types/chat.ts`: only `"group"`. -/
inductive Preference where
  | group
deriving DecidableEq, Repr

/-- `UserProfile` from `src/lib/types/user.ts`; the optional fields are
absent from the serialized `join_chat` frame exactly when `none`. -/
structure UserProfile where
  user_id : String
  username : String
  preference : Preference
  gender : String
  room_type : String
  group_code : Option String := none
  group_join_method : Option GroupJoinMethod := none
deriving DecidableEq, Repr

/-- `MessageRole` from `src/lib/types/chat.ts`. -/
inductive MessageRole where
  | user
  | assistant
deriving DecidableEq, Repr

/-- The variant part of `Message` from `src/lib/types/chat.ts`
(text / file / notification / image). -/
inductive MessageBody where
  | text (content : String)
  | file (fileName : String) (fileSize : Nat) (fileType : String) (fileData : List Nat)
  | notification (content : String)
  | image (imageUrl : String)
deriving DecidableEq, Repr

/-- `Message` from `src/lib/types/chat.ts`. -/
structure Message where
  id : String
  sender : String
  isOwnMessage : Bool
  replyToId : Option String := none
  messageIndex : Option Nat := none
  role : MessageRole
  timestamp : Nat
  body : MessageBody
deriving DecidableEq, Repr

/-- JS truthiness of a nullable string: `undefined`/`null` and `""` are
falsy. -/
def truthyStr : Option String → Bool
  | none => false
  | some s => s != ""

/-- The JS `a || b` idiom on a nullable string. -/
def jsOr (a : Option String) (b : String) : String :=
  match a with
  | some s => if s = "" then b else s
  | none => b

/-- JS `Number(x)` as used for `reply_to_id`: a decimal-digit string
yields its value, anything else (UUIDs in particular) is `NaN`, modelled
as `none`; `JSON.stringify` renders `NaN` as `null`. -/
def jsNumber (s : String) : Option Nat :=
  if s.data ≠ [] ∧ s.data.all (fun c => 48 ≤ c.toNat && c.toNat ≤ 57) = true then
    some (s.data.foldl (fun acc c => acc * 10 + (c.toNat - 48)) 0)
  else none

/-- The `send_message` payload (lines 732–737).  `group_code` is the
state's value (`null` serializes, so it is always present);
`reply_to_id`'s outer `Option` is presence (`undefined` is omitted), the
inner one is number-vs-`NaN`. -/
structure SendMessageData where
  message : EncryptedData
  is_group_chat : Bool
  group_code : Option String
  reply_to_id : Option (Option Nat)
deriving DecidableEq, Repr

/-- The `file_sending_start`/`file_sending_end` payload (lines 665–669 and
749–753). -/
structure FileSendingData where
  file_id : String
  is_group_chat : Bool
  group_code : Option String
deriving DecidableEq, Repr

/-- The `delete_message` payload (lines 807–811). -/
structure DeleteMessageData where
  messageId : String
  chatId : Option String
  isGroupChat : Bool
deriving DecidableEq, Repr

/-- `WebRTCSignalData` from `webrtc-events.ts` (lines 4–12); the SDP and
candidate payloads are opaque to the embedded code and modelled as
strings. -/
structure WebRTCSignalData where
  sender_id : String
  target_id : Option String := none
  is_group_chat : Bool := false
  group_code : Option String := none
  offer : Option String := none
  answer : Option String := none
  candidate : Option String := none
deriving DecidableEq, Repr

/-- The payload of one wire frame, typed per event. -/
inductive FramePayload where
  | joinChat (p : UserProfile)
  | sendMsg (d : SendMessageData)
  | typing (is_group_chat : Bool) (group_code : Option String)
  | fileSendingStart (d : FileSendingData)
  | fileSendingEnd (d : FileSendingData)
  | deleteMsg (d : DeleteMessageData)
  | webrtc (d : WebRTCSignalData)
  | disconnectChat
deriving DecidableEq, Repr

/-- One `{event, data}` frame on the wire. -/
structure Frame where
  event : String
  data : FramePayload
deriving DecidableEq, Repr

/-- The `useChat` hook state (lines 13–26). -/
structure ChatState where
  messages : List Message
  messageCounter : Nat
  connected : Bool
  isGroupChat : Bool
  groupCode : Option String
  groupMembers : List String
  partnerTyping : Bool
  partnerDisconnected : Bool
  connecting : Bool
  currentReplyTo : Option String
  socket : Option WSocket
deriving DecidableEq, Repr

/-- `sendJsonMessage` (lines 58–70): emit one frame when the socket exists
and its `readyState` is OPEN, otherwise log and send nothing. -/
def sendJsonMessage (socket : Option WSocket) (event : String) (data : FramePayload) :
    List Frame :=
  match socket with
  | some ws => if ws.readyState = ReadyState.opened then [⟨event, data⟩] else []
  | none => []

/-- The `userProfile` construction in `connect` (lines 86–103):
`room_type` from the preference; the group fields only inside the
`preference === 'group'` block, `group_code` only when the method is
`join` and a truthy custom code was supplied. -/
def connectProfile (userId : String) (storedUsername : Option String)
    (preference : Preference) (groupJoinMethod : Option GroupJoinMethod)
    (customGroupCode : Option String) : UserProfile :=
  let base : UserProfile := {
    user_id := userId,
    username := jsOr storedUsername ("User_" ++ jsSubstring userId 0 5),
    preference := preference,
    gender := "default",
    room_type := if preference = Preference.group then "group" else "couple" }
  if preference = Preference.group then
    let withMethod := { base with group_join_method := groupJoinMethod }
    if groupJoinMethod = some GroupJoinMethod.join ∧ truthyStr customGroupCode then
      { withMethod with group_code := customGroupCode }
    else withMethod
  else base

/-- The `join_chat` frame `connect` sends from `socket.onopen`
(lines 117–121). -/
def connectJoinFrame (userId : String) (storedUsername : Option String)
    (preference : Preference) (groupJoinMethod : Option GroupJoinMethod)
    (customGroupCode : Option String) : Frame :=
  ⟨"join_chat",
    FramePayload.joinChat
      (connectProfile userId storedUsername preference groupJoinMethod customGroupCode)⟩

/-- `handleChatStarted` (lines 229–270); `newId` models `uuidv4()`, `now`
models `Date.now()`. -/
def handleChatStarted (st : ChatState) (dataGroupCode : Option String)
    (newId : String) (now : Nat) : ChatState :=
  let st1 := { st with connected := true, connecting := false, partnerDisconnected := false }
  if truthyStr dataGroupCode then
    { st1 with
      isGroupChat := true,
      groupCode := dataGroupCode,
      messages := [{
        id := newId,
        sender := "system",
        isOwnMessage := false,
        messageIndex := some st.messageCounter,
        role := MessageRole.assistant,
        timestamp := now,
        body := MessageBody.notification
          ("You've joined a group chat. Group code: " ++ jsOr dataGroupCode "N/A") }],
      messageCounter := st.messageCounter + 1 }
  else
    { st1 with
      isGroupChat := false,
      messages := [{
        id := newId,
        sender := "system",
        isOwnMessage := false,
        messageIndex := some st.messageCounter,
        role := MessageRole.assistant,
        timestamp := now,
        body := MessageBody.notification
          "You're now chatting with a random stranger. Say Yaps!" }],
      messageCounter := st.messageCounter + 1 }

/-- The control-character test `/[\x00-\x08\x0B\x0C\x0E-\x1F]/.test(s)`
(line 301). -/
def hasControlChars (s : String) : Bool :=
  s.data.any fun c =>
    (c.toNat ≤ 0x08) || (c.toNat = 0x0B) || (c.toNat = 0x0C) ||
    (0x0E ≤ c.toNat && c.toNat ≤ 0x1F)

/-- Approximation of the Unicode-category regex
`/^[\p{L}\p{M}\p{Z}\p{S}\p{N}\p{P}]+$/u` of line 304 (nonempty and no
category-C character), modelled as: nonempty and no C0/C1 control
character.  No claim below depends on this branch of the heuristic. -/
def allPrintableCategories (s : String) : Bool :=
  !s.data.isEmpty && s.data.all fun c =>
    !(c.toNat < 0x20 || (0x7F ≤ c.toNat && c.toNat ≤ 0x9F))

/-- The `data` of a `receive_message` event as the handler reads it
(lines 272–357): the envelope, the sender, and the two places `reply_to`
may sit; `String(x)` on the wire value is modelled as that value's string
rendering, supplied directly. -/
structure ReceiveMessageData where
  sender : String
  message : EncryptedData
  message_reply_to : Option String := none
  reply_to : Option String := none
deriving DecidableEq, Repr

/-- `handleReceiveMessage` (lines 272–408): decrypt, run the text/binary
heuristic and append one chat message; on a decryption failure (the
`catch`) append exactly one fixed system notification instead. -/
def handleReceiveMessage (cryptoKeyEnv : Option String) (st : ChatState)
    (data : ReceiveMessageData) (newId : String) (now : Nat) : ChatState :=
  match decryptMessage cryptoKeyEnv data.message with
  | some decryptedBuffer =>
    let decodedText := utf8ToString decryptedBuffer
    let isLikelyText := !hasControlChars decodedText ||
      decide (decodedText.length < 1000) || allPrintableCategories decodedText
    let replyToId : Option String :=
      match data.message_reply_to with
      | some r => some r
      | none => data.reply_to
    let base : Message := {
      id := newId,
      sender := data.sender,
      isOwnMessage := false,
      replyToId := replyToId,
      messageIndex := some st.messageCounter,
      role := MessageRole.assistant,
      timestamp := now,
      body := MessageBody.text decodedText }
    let newMsg : Message :=
      if jsStartsWith decodedText "data:image" then base
      else if isLikelyText then base
      else { base with
        body := MessageBody.file "image.png" decryptedBuffer.length "image/png" decryptedBuffer }
    { st with
      messages := st.messages ++ [newMsg],
      messageCounter := st.messageCounter + 1 }
  | none =>
    { st with
      messages := st.messages ++ [{
        id := newId,
        sender := "system",
        isOwnMessage := false,
        messageIndex := some st.messageCounter,
        role := MessageRole.assistant,
        timestamp := now,
        body := MessageBody.notification
          "Could not decrypt message. Encryption key may be invalid." }],
      messageCounter := st.messageCounter + 1 }

/-- `handleMessageDeleted` (lines 525–537): drop every message whose `id`
equals `data.messageId`. -/
def handleMessageDeleted (st : ChatState) (dataMessageId : String) : ChatState :=
  { st with messages := st.messages.filter fun msg => msg.id != dataMessageId }

/-- `deleteMessage` (lines 792–828): when the socket exists and
`connected` holds, send one `delete_message` frame (directly through
`socket.send`, which does not check `readyState`) and optimistically drop
the message locally; otherwise only toast. -/
def deleteMessage (st : ChatState) (messageId : String) : ChatState × List Frame :=
  if st.socket = none ∨ st.connected = false then (st, [])
  else
    ({ st with messages := st.messages.filter fun msg => msg.id != messageId },
     [⟨"delete_message",
        FramePayload.deleteMsg {
          messageId := messageId,
          chatId := st.groupCode,
          isGroupChat := truthyStr st.groupCode }⟩])

/-- The JPEG / PNG / GIF magic-number test on the buffer's first bytes
(lines 620–627). -/
def isProbablyImage (b : List Nat) : Bool :=
  match b with
  | b0 :: b1 :: b2 :: b3 :: _ =>
    (b0 == 0xFF && b1 == 0xD8) ||
    (b0 == 0x89 && b1 == 0x50 && b2 == 0x4E && b3 == 0x47) ||
    (b0 == 0x47 && b1 == 0x49 && b2 == 0x46 && b3 == 0x38)
  | _ => false

/-- The promise outcome of `sendMessage`. -/
inductive SendResult where
  | rejected
  | resolved
deriving DecidableEq, Repr

/-- The tail of `sendMessage` after content classification (lines
673–756): encrypt (a throw rejects, after any frames already sent),
append the local message, emit `send_message`, clear the pending reply,
and for files also emit `file_sending_end`. -/
def sendMessageBody (cryptoKeyEnv : Option String) (entropy : List Nat) (st : ChatState)
    (userId : String) (messageToSend : JsData) (fileId : Option String)
    (preFrames : List Frame) (replyToId : Option String) (newId : String) (now : Nat) :
    SendResult × ChatState × List Frame :=
  match encryptMessage cryptoKeyEnv entropy messageToSend with
  | none => (SendResult.rejected, st, preFrames)
  | some encryptedData =>
    let base : Message := {
      id := newId,
      sender := userId,
      isOwnMessage := true,
      replyToId := replyToId,
      messageIndex := some st.messageCounter,
      role := MessageRole.user,
      timestamp := now,
      body := MessageBody.text "" }
    let newMessage : Message :=
      match messageToSend, fileId with
      | JsData.buf b, some _ =>
        if b.length ≠ 0 then
          { base with body := MessageBody.file "image.png" b.length "image/png" b }
        else
          { base with body := MessageBody.text "Error: Could not determine message format" }
      | JsData.str s, _ => { base with body := MessageBody.text s }
      | JsData.buf _, none =>
        { base with body := MessageBody.text "Error: Could not determine message format" }
    let st1 := { st with
      messages := st.messages ++ [newMessage],
      messageCounter := st.messageCounter + 1 }
    let serverReplyToId : Option (Option Nat) :=
      match replyToId with
      | some r => if r ≠ "" then some (jsNumber r) else none
      | none => none
    let msgFrame := sendJsonMessage st.socket "send_message"
      (FramePayload.sendMsg {
        message := encryptedData,
        is_group_chat := st.isGroupChat,
        group_code := st.groupCode,
        reply_to_id := serverReplyToId })
    let st2 := if replyToId ≠ none then { st1 with currentReplyTo := none } else st1
    let endFrames :=
      match fileId with
      | some fid => sendJsonMessage st.socket "file_sending_end"
          (FramePayload.fileSendingEnd {
            file_id := fid,
            is_group_chat := st.isGroupChat,
            group_code := st.groupCode })
      | none => []
    (SendResult.resolved, st2, preFrames ++ msgFrame ++ endFrames)

/-- `sendMessage` (lines 589–764).  A missing socket or `connected =
false` rejects immediately.  For an `ArrayBuffer`, `new
Uint8Array(content, 0, 8)` throws a `RangeError` when the buffer has
fewer than 8 bytes, which the surrounding `try` turns into a rejection
with nothing sent; otherwise the magic-number test decides between the
image path (with `file_sending_start`/`end` frames around the
`send_message`) and decoding the buffer as UTF-8 text (`TextDecoder`
without `fatal` never throws, so the binary fallback `catch` of lines
639–650 is unreachable). -/
def sendMessage (cryptoKeyEnv : Option String) (entropy : List Nat) (st : ChatState)
    (userId : String) (content : JsData) (replyToId : Option String)
    (newId : String) (now : Nat) : SendResult × ChatState × List Frame :=
  if st.socket = none ∨ st.connected = false then (SendResult.rejected, st, [])
  else
    match content with
    | JsData.str s =>
      sendMessageBody cryptoKeyEnv entropy st userId (JsData.str s) none [] replyToId newId now
    | JsData.buf b =>
      if b.length < 8 then (SendResult.rejected, st, [])
      else if !(isProbablyImage b) then
        sendMessageBody cryptoKeyEnv entropy st userId (JsData.str (utf8ToString b)) none []
          replyToId newId now
      else
        let fileId := "file-" ++ toString now
        let preFrames := sendJsonMessage st.socket "file_sending_start"
          (FramePayload.fileSendingStart {
            file_id := fileId,
            is_group_chat := st.isGroupChat,
            group_code := st.groupCode })
        sendMessageBody cryptoKeyEnv entropy st userId (JsData.buf b) (some fileId) preFrames
          replyToId newId now

/-! ### WebRTC signaling helpers (`webrtc-events.ts`) -/

/-- `getCurrentUserId` (lines 224–235): the `userId` from `localStorage`
when truthy, else a fresh `user-…` id which is also stored; `randTail`
models `Math.random().toString(36).substring(2, 9)`.  Returns the id and
the updated stored value. -/
def getCurrentUserId (storedUserId : Option String) (randTail : String) :
    String × Option String :=
  match storedUserId with
  | some uid =>
    if uid != "" then (uid, some uid)
    else ("user-" ++ randTail, some ("user-" ++ randTail))
  | none => ("user-" ++ randTail, some ("user-" ++ randTail))

/-- `sendOffer` (lines 97–126): `false` and nothing sent unless the
socket exists and is OPEN; otherwise one `webrtc_offer` frame. -/
def sendOffer (socket : Option WSocket) (storedUserId : Option String) (randTail : String)
    (offer : String) (targetId : String) (isGroupChat : Bool := false)
    (groupCode : Option String := none) : Bool × Option String × List Frame :=
  match socket with
  | none => (false, storedUserId, [])
  | some ws =>
    if ws.readyState ≠ ReadyState.opened then (false, storedUserId, [])
    else
      let pr := getCurrentUserId storedUserId randTail
      (true, pr.2,
       [⟨"webrtc_offer",
          FramePayload.webrtc {
            sender_id := pr.1,
            offer := some offer,
            target_id := some targetId,
            is_group_chat := isGroupChat,
            group_code := groupCode }⟩])

/-- `sendAnswer` (lines 129–158). -/
def sendAnswer (socket : Option WSocket) (storedUserId : Option String) (randTail : String)
    (answer : String) (targetId : String) (isGroupChat : Bool := false)
    (groupCode : Option String := none) : Bool × Option String × List Frame :=
  match socket with
  | none => (false, storedUserId, [])
  | some ws =>
    if ws.readyState ≠ ReadyState.opened then (false, storedUserId, [])
    else
      let pr := getCurrentUserId storedUserId randTail
      (true, pr.2,
       [⟨"webrtc_answer",
          FramePayload.webrtc {
            sender_id := pr.1,
            answer := some answer,
            target_id := some targetId,
            is_group_chat := isGroupChat,
            group_code := groupCode }⟩])

/-- `sendIceCandidate` (lines 161–190). -/
def sendIceCandidate (socket : Option WSocket) (storedUserId : Option String)
    (randTail : String) (candidate : String) (targetId : String)
    (isGroupChat : Bool := false) (groupCode : Option String := none) :
    Bool × Option String × List Frame :=
  match socket with
  | none => (false, storedUserId, [])
  | some ws =>
    if ws.readyState ≠ ReadyState.opened then (false, storedUserId, [])
    else
      let pr := getCurrentUserId storedUserId randTail
      (true, pr.2,
       [⟨"webrtc_ice_candidate",
          FramePayload.webrtc {
            sender_id := pr.1,
            candidate := some candidate,
            target_id := some targetId,
            is_group_chat := isGroupChat,
            group_code := groupCode }⟩])

/-- `sendEndCall` (lines 193–221): like the others but with no media
field. -/
def sendEndCall (socket : Option WSocket) (storedUserId : Option String) (randTail : String)
    (targetId : String) (isGroupChat : Bool := false) (groupCode : Option String := none) :
    Bool × Option String × List Frame :=
  match socket with
  | none => (false, storedUserId, [])
  | some ws =>
    if ws.readyState ≠ ReadyState.opened then (false, storedUserId, [])
    else
      let pr := getCurrentUserId storedUserId randTail
      (true, pr.2,
       [⟨"webrtc_end_call",
          FramePayload.webrtc {
            sender_id := pr.1,
            target_id := some targetId,
            is_group_chat := isGroupChat,
            group_code := groupCode }⟩])

/-- A concrete connected hook state (fixture for the closed witness and
counterexample theorems below). -/
def sampleStateOpen : ChatState := {
  messages := [],
  messageCounter := 0,
  connected := true,
  isGroupChat := false,
  groupCode := none,
  groupMembers := [],
  partnerTyping := false,
  partnerDisconnected := false,
  connecting := false,
  currentReplyTo := none,
  socket := some ⟨ReadyState.opened⟩ }

/-- The same state with the underlying socket already CLOSED while the
`connected` flag is still set (the window between the transport closing
and the `onclose` handler running). -/
def sampleStateClosedConn : ChatState :=
  { sampleStateOpen with socket := some ⟨ReadyState.closed⟩ }

/-- A concrete chat message (fixture). -/
def sampleMsg (i : String) : Message :=
  ⟨i, "u1", true, none, some 0, MessageRole.user, 0, MessageBody.text "x"⟩

/-- A connected state holding two messages (fixture). -/
def sampleStateMsgs : ChatState :=
  { sampleStateOpen with messages := [sampleMsg "a", sampleMsg "b"] }

/-! ## Theorems -/

theorem isCont_base_add (m : Nat) (hm : m < 64) : isCont (0x80 + m) = true := by
  simp only [isCont, Bool.and_eq_true, decide_eq_true_eq]
  omega

theorem decodeOne_encodeCharNat (n : Nat) (hn : n < 0x110000) (rest : List Nat) :
    decodeOne (encodeCharNat n ++ rest) = some (n, rest) := by
  unfold encodeCharNat
  by_cases h1 : n < 0x80
  · simp only [h1, if_true, List.cons_append, List.nil_append]
    simp only [decodeOne, if_pos h1]
  · by_cases h2 : n < 0x800
    · have hb1 : ¬ (0xC0 + n / 64 < 0x80) := by omega
      have hb2 : ¬ (0xC0 + n / 64 < 0xC0) := by omega
      have hb3 : 0xC0 + n / 64 < 0xE0 := by omega
      have hc : isCont (0x80 + n % 64) = true := isCont_base_add _ (Nat.mod_lt _ (by omega))
      have hv : (0xC0 + n / 64 - 0xC0) * 64 + (0x80 + n % 64 - 0x80) = n := by omega
      simp only [h1, h2, if_false, if_true, List.cons_append, List.nil_append]
      simp only [decodeOne, if_neg hb1, if_neg hb2, if_pos hb3, hc, if_true, hv]
    · by_cases h3 : n < 0x10000
      · have hb1 : ¬ (0xE0 + n / 4096 < 0x80) := by omega
        have hb2 : ¬ (0xE0 + n / 4096 < 0xC0) := by omega
        have hb3 : ¬ (0xE0 + n / 4096 < 0xE0) := by omega
        have hb4 : 0xE0 + n / 4096 < 0xF0 := by omega
        have hc1 : isCont (0x80 + n / 64 % 64) = true :=
          isCont_base_add _ (Nat.mod_lt _ (by omega))
        have hc2 : isCont (0x80 + n % 64) = true := isCont_base_add _ (Nat.mod_lt _ (by omega))
        have hv : (0xE0 + n / 4096 - 0xE0) * 4096 + (0x80 + n / 64 % 64 - 0x80) * 64 +
            (0x80 + n % 64 - 0x80) = n := by omega
        simp only [h1, h2, h3, if_false, if_true, List.cons_append, List.nil_append]
        simp only [decodeOne, if_neg hb1, if_neg hb2, if_neg hb3, if_pos hb4, hc1, hc2,
          Bool.and_self, if_true, hv]
      · have hb1 : ¬ (0xF0 + n / 262144 < 0x80) := by omega
        have hb2 : ¬ (0xF0 + n / 262144 < 0xC0) := by omega
        have hb3 : ¬ (0xF0 + n / 262144 < 0xE0) := by omega
        have hb4 : ¬ (0xF0 + n / 262144 < 0xF0) := by omega
        have hb5 : 0xF0 + n / 262144 < 0xF8 := by omega
        have hc1 : isCont (0x80 + n / 4096 % 64) = true :=
          isCont_base_add _ (Nat.mod_lt _ (by omega))
        have hc2 : isCont (0x80 + n / 64 % 64) = true :=
          isCont_base_add _ (Nat.mod_lt _ (by omega))
        have hc3 : isCont (0x80 + n % 64) = true := isCont_base_add _ (Nat.mod_lt _ (by omega))
        have hv : (0xF0 + n / 262144 - 0xF0) * 262144 + (0x80 + n / 4096 % 64 - 0x80) * 4096 +
            (0x80 + n / 64 % 64 - 0x80) * 64 + (0x80 + n % 64 - 0x80) = n := by omega
        simp only [h1, h2, h3, if_false, if_true, List.cons_append, List.nil_append]
        simp only [decodeOne, if_neg hb1, if_neg hb2, if_neg hb3, if_neg hb4, if_pos hb5,
          hc1, hc2, hc3, Bool.and_self, if_true, hv]

theorem decodeOne_some_length {l r : List Nat} {cp : Nat} (h : decodeOne l = some (cp, r)) :
    r.length < l.length := by
  match l with
  | [] => simp [decodeOne] at h
  | b :: rest =>
    simp only [decodeOne] at h
    split_ifs at h with h1 h2 h3 h4 h5
    · simp only [Option.some.injEq, Prod.mk.injEq] at h
      obtain ⟨-, hr⟩ := h
      subst hr
      simp only [List.length_cons]
      omega
    · split at h
      · split_ifs at h with hc
        simp only [Option.some.injEq, Prod.mk.injEq] at h
        obtain ⟨-, hr⟩ := h
        subst hr
        simp only [List.length_cons]
        omega
      · exact absurd h (by simp)
    · split at h
      · split_ifs at h with hc
        simp only [Option.some.injEq, Prod.mk.injEq] at h
        obtain ⟨-, hr⟩ := h
        subst hr
        simp only [List.length_cons]
        omega
      · exact absurd h (by simp)
    · split at h
      · split_ifs at h with hc
        simp only [Option.some.injEq, Prod.mk.injEq] at h
        obtain ⟨-, hr⟩ := h
        subst hr
        simp only [List.length_cons]
        omega
      · exact absurd h (by simp)

theorem char_toNat_lt (c : Char) : c.toNat < 0x110000 := by
  have := c.valid
  unfold UInt32.isValidChar Nat.isValidChar at this
  show c.val.toNat < 0x110000
  rcases this with h | ⟨h1, h2⟩ <;> omega

theorem decodeUtf8Aux_ext :
    ∀ (f1 : Nat) (l : List Nat) (f2 : Nat), l.length ≤ f1 → l.length ≤ f2 →
      decodeUtf8Aux f1 l = decodeUtf8Aux f2 l := by
  intro f1
  induction f1 with
  | zero =>
    intro l f2 hl1 hl2
    match l with
    | [] =>
      match f2 with
      | 0 => rfl
      | g + 1 => rfl
    | b :: rest => exact absurd hl1 (by simp)
  | succ f ih =>
    intro l f2 hl1 hl2
    match l with
    | [] =>
      match f2 with
      | 0 => rfl
      | g + 1 => rfl
    | b :: rest =>
      match f2 with
      | 0 => exact absurd hl2 (by simp)
      | g + 1 =>
        simp only [decodeUtf8Aux]
        cases hd : decodeOne (b :: rest) with
        | none => rfl
        | some pr =>
          obtain ⟨cp, r⟩ := pr
          have hlen := decodeOne_some_length hd
          simp only [List.length_cons] at hl1 hl2 hlen
          simp only [hd, Option.some_bind]
          rw [ih r g (by omega) (by omega)]

theorem encodeCharNat_ne_nil (n : Nat) : encodeCharNat n ≠ [] := by
  unfold encodeCharNat
  split_ifs <;> simp

theorem decodeUtf8_encode_append (n : Nat) (hn : n < 0x110000) (rest : List Nat) :
    decodeUtf8 (encodeCharNat n ++ rest) = (decodeUtf8 rest).map fun l => n :: l := by
  obtain ⟨b, t, henc⟩ : ∃ b t, encodeCharNat n = b :: t := by
    match he : encodeCharNat n with
    | [] => exact absurd he (encodeCharNat_ne_nil n)
    | b :: t => exact ⟨b, t, rfl⟩
  unfold decodeUtf8
  rw [henc]
  simp only [List.cons_append, List.length_cons, decodeUtf8Aux]
  have hD : decodeOne (b :: (t ++ rest)) = some (n, rest) := by
    rw [← List.cons_append, ← henc]
    exact decodeOne_encodeCharNat n hn rest
  simp only [List.append_eq]
  simp only [hD, Option.some_bind]
  rw [decodeUtf8Aux_ext (t ++ rest).length rest rest.length
    (by simp only [List.length_append]; omega) le_rfl]

theorem decodeUtf8_utf8Encode (s : String) :
    decodeUtf8 (utf8Encode s) = some (s.data.map Char.toNat) := by
  unfold utf8Encode
  suffices h : ∀ cs : List Char,
      decodeUtf8 ((cs.map fun c => encodeCharNat c.toNat).flatten) = some (cs.map Char.toNat)
    from h s.data
  intro cs
  induction cs with
  | nil => rfl
  | cons c cs ihc =>
    simp only [List.map_cons, List.flatten_cons]
    rw [decodeUtf8_encode_append c.toNat (char_toNat_lt c), ihc]
    rfl

theorem utf8ToString_utf8Encode (s : String) : utf8ToString (utf8Encode s) = s := by
  unfold utf8ToString
  rw [decodeUtf8_utf8Encode]
  simp only [List.map_map]
  have hmap : s.data.map (Char.ofNat ∘ Char.toNat) = s.data := by
    have hc : ∀ c ∈ s.data, (Char.ofNat ∘ Char.toNat) c = id c := fun c _ => Char.ofNat_toNat c
    rw [List.map_congr_left hc, List.map_id]
  rw [hmap]

theorem encodeCharNat_lt (n : Nat) (hn : n < 0x110000) : ∀ b ∈ encodeCharNat n, b < 256 := by
  unfold encodeCharNat
  split_ifs with h1 h2 h3
  · intro b hb
    simp at hb
    omega
  · intro b hb
    simp at hb
    rcases hb with rfl | rfl <;> omega
  · intro b hb
    simp at hb
    rcases hb with rfl | rfl | rfl <;> omega
  · intro b hb
    simp at hb
    rcases hb with rfl | rfl | rfl | rfl <;> omega

theorem utf8Encode_lt (s : String) : ∀ b ∈ utf8Encode s, b < 256 := by
  intro b hb
  unfold utf8Encode at hb
  rw [List.mem_flatten] at hb
  obtain ⟨sub, hsub, hbs⟩ := hb
  rw [List.mem_map] at hsub
  obtain ⟨c, -, rfl⟩ := hsub
  exact encodeCharNat_lt c.toNat (char_toNat_lt c) b hbs

theorem charSextet_sextetChar_all : ∀ n < 64, charSextet (sextetChar n) = some n := by decide

theorem sextetChar_ne_eq_all : ∀ n < 64, sextetChar n ≠ '=' := by decide

theorem charSextet_sextetChar {n : Nat} (hn : n < 64) : charSextet (sextetChar n) = some n :=
  charSextet_sextetChar_all n hn

theorem sextetChar_ne_eq {n : Nat} (hn : n < 64) : sextetChar n ≠ '=' :=
  sextetChar_ne_eq_all n hn

theorem b64decode_b64encode : ∀ l : List Nat, (∀ b ∈ l, b < 256) →
    b64decode (b64encode l) = some l := by
  intro l
  induction l using b64encode.induct with
  | case1 => intro _; rfl
  | case2 a =>
    intro hb
    have ha : a < 256 := hb a (by simp)
    simp only [b64encode, b64decode]
    rw [charSextet_sextetChar (by omega), charSextet_sextetChar (by omega)]
    simp only [Option.some_bind]
    rw [if_pos trivial, if_pos (⟨trivial, trivial⟩ : True ∧ True)]
    have hv : a / 4 * 4 + a % 4 * 16 / 16 = a := by omega
    rw [hv]
  | case3 a b =>
    intro hb
    have ha : a < 256 := hb a (by simp)
    have hbb : b < 256 := hb b (by simp)
    simp only [b64encode, b64decode]
    rw [charSextet_sextetChar (by omega), charSextet_sextetChar (by omega)]
    simp only [Option.some_bind]
    rw [if_neg (sextetChar_ne_eq (by omega)), charSextet_sextetChar (by omega)]
    simp only [Option.some_bind]
    rw [if_pos trivial, if_pos trivial]
    have h1 : a / 4 * 4 + (a % 4 * 16 + b / 16) / 16 = a := by omega
    have h2 : (a % 4 * 16 + b / 16) % 16 * 16 + b % 16 * 4 / 4 = b := by omega
    rw [h1, h2]
  | case4 a b c rest ih =>
    intro hb
    have ha : a < 256 := hb a (by simp)
    have hbb : b < 256 := hb b (by simp)
    have hc : c < 256 := hb c (by simp)
    simp only [b64encode, b64decode]
    rw [charSextet_sextetChar (by omega), charSextet_sextetChar (by omega)]
    simp only [Option.some_bind]
    rw [if_neg (sextetChar_ne_eq (by omega)), charSextet_sextetChar (by omega)]
    simp only [Option.some_bind]
    rw [if_neg (sextetChar_ne_eq (by omega)), charSextet_sextetChar (by omega)]
    simp only [Option.some_bind]
    rw [ih (fun x hx => hb x (by simp [hx]))]
    have h1 : a / 4 * 4 + (a % 4 * 16 + b / 16) / 16 = a := by omega
    have h2 : (a % 4 * 16 + b / 16) % 16 * 16 + (b % 16 * 4 + c / 64) / 4 = b := by omega
    have h3 : (b % 16 * 4 + c / 64) % 4 * 64 + c % 64 = c := by omega
    rw [h1, h2, h3]
    rfl


/-- Auxiliary: a string matching `^[a-zA-Z0-9]{6}$` has length 6. -/
theorem regexAlnum6_length {c : String} (h : regexAlnum6 c = true) : c.length = 6 := by
  unfold regexAlnum6 at h
  simp only [Bool.and_eq_true, beq_iff_eq] at h
  exact h.1

/-- C1 counterexample: on the direct input `"ab-cdefg"` (neither a URL nor
a path) the handler stores `"abcde"` — it truncates to six characters
*before* stripping the `-` — whereas strip-then-truncate, as the claim
states, would give `"abcdef"`, the first six alphanumeric characters. -/
theorem C1_counterexample_truncate_before_strip :
    jsIncludes "ab-cdefg" "://" = false ∧
    jsStartsWith "ab-cdefg" "/" = false ∧
    onChangeGroupCode "ab-cdefg" = "abcde" ∧
    jsSubstring (stripNonAlnum "ab-cdefg") 0 6 = "abcdef" ∧
    onChangeGroupCode "ab-cdefg" ≠ jsSubstring (stripNonAlnum "ab-cdefg") 0 6 := by
  refine ⟨by decide, by decide, by decide, by decide, by decide⟩

/-- C1 (amended): for a direct input `s` (no `"://"`, not starting with
`/`), the `onChange` handler stores the result of truncating `s` to its
first six characters and *then* stripping non-alphanumerics — i.e. the
alphanumeric characters among the first six characters of `s`, which may
be fewer than six. -/
theorem C1_onchange_truncates_then_strips (s : String)
    (h1 : jsIncludes s "://" = false) (h2 : jsStartsWith s "/" = false) :
    onChangeGroupCode s = stripNonAlnum (jsSubstring s 0 6) := by
  unfold onChangeGroupCode extractCodeFromInput
  simp only [h1, Bool.false_eq_true, if_false, h2]
  unfold jsSubstring stripNonAlnum
  refine congrArg String.mk ?_
  simp only [List.drop_zero, Nat.sub_zero]
  exact List.take_of_length_le
    (le_trans (List.length_filter_le _ _) (List.length_take_le 6 _))

/-- C1 witness: the amended statement at the concrete input `"ab-cdefg"`. -/
theorem C1_witness :
    onChangeGroupCode "ab-cdefg" = stripNonAlnum (jsSubstring "ab-cdefg" 0 6) :=
  C1_onchange_truncates_then_strips "ab-cdefg" (by decide) (by decide)

/-- C2: `handleJoinByCode` initiates `onStartGroupChat("join", code)`
exactly for codes of length 6 that match `^[a-zA-Z0-9]{6}$`, and returns
without initiating a join for every other code. -/
theorem C2_join_iff_valid_code (c : String) :
    (handleJoinByCode c = some (GroupJoinMethod.join, c) ↔
      (c.length = 6 ∧ regexAlnum6 c = true)) ∧
    (handleJoinByCode c = none ↔ ¬ (c.length = 6 ∧ regexAlnum6 c = true)) := by
  by_cases hb : regexAlnum6 c = true
  · have h6 := regexAlnum6_length hb
    have hne : ¬ c = "" := by
      intro h0
      rw [h0] at h6
      exact absurd h6 (by decide)
    simp [handleJoinByCode, hne, h6, hb]
  · simp [handleJoinByCode, hb]

theorem ctrXor_length (key nonce : List Nat) :
    ∀ (i : Nat) (l : List Nat), (ctrXor key nonce i l).length = l.length := by
  intro i l
  induction l generalizing i with
  | nil => rfl
  | cons b rest ih => simp [ctrXor, ih]

theorem ctrXor_lt (key nonce : List Nat) :
    ∀ (i : Nat) (l : List Nat), (∀ b ∈ l, b < 256) →
      ∀ b ∈ ctrXor key nonce i l, b < 256 := by
  intro i l
  induction l generalizing i with
  | nil => intro _ b hb; simp [ctrXor] at hb
  | cons a rest ih =>
    intro hl b hb
    simp only [ctrXor, List.mem_cons] at hb
    rcases hb with rfl | hb
    · have h1 : a < 2 ^ 8 := hl a (by simp)
      have h2 : keystreamByte key nonce i < 2 ^ 8 := by
        unfold keystreamByte
        exact Nat.mod_lt _ (by omega)
      exact Nat.xor_lt_two_pow h1 h2
    · exact ih (i + 1) (fun x hx => hl x (by simp [hx])) b hb

theorem ctrXor_involution (key nonce : List Nat) :
    ∀ (i : Nat) (l : List Nat), ctrXor key nonce i (ctrXor key nonce i l) = l := by
  intro i l
  induction l generalizing i with
  | nil => rfl
  | cons b rest ih =>
    simp only [ctrXor, List.cons.injEq]
    exact ⟨Nat.xor_cancel_right _ _, ih (i + 1)⟩

theorem authTag_length (key nonce ct : List Nat) : (authTag key nonce ct).length = 16 := by
  simp [authTag]

theorem authTag_lt (key nonce ct : List Nat) : ∀ b ∈ authTag key nonce ct, b < 256 := by
  intro b hb
  unfold authTag at hb
  rw [List.mem_map] at hb
  obtain ⟨i, -, rfl⟩ := hb
  exact Nat.mod_lt _ (by omega)

theorem randomBytesM_length (n : Nat) (entropy : List Nat) :
    (randomBytesM n entropy).length = n := by
  simp [randomBytesM]

theorem randomBytesM_lt (n : Nat) (entropy : List Nat) :
    ∀ b ∈ randomBytesM n entropy, b < 256 := by
  intro b hb
  unfold randomBytesM at hb
  have hb' := List.mem_of_mem_take hb
  rw [List.mem_append] at hb'
  rcases hb' with hm | hm
  · rw [List.mem_map] at hm
    obtain ⟨x, -, rfl⟩ := hm
    exact Nat.mod_lt _ (by omega)
  · rw [List.eq_of_mem_replicate hm]
    omega

/-- C9: for every message string `m` and valid key, encrypting and then
decrypting returns a buffer whose UTF-8 decoding is `m`; the nonce is 12
bytes, the base64 `encrypted` field decodes to ciphertext ‖ 16-byte auth
tag, the tag is exactly `authTag` of the ciphertext, and `decryptMessage`
splits off exactly those last 16 bytes and XOR-decrypts the remainder
under the same key and nonce. -/
theorem C9_encrypt_decrypt_roundtrip (envKey : String) (entropy : List Nat) (m : String)
    (key : List Nat) (hk : getEncryptionKey (some envKey) = some key)
    (hl : key.length = 32) :
    ∃ ed buf,
      encryptMessage (some envKey) entropy (JsData.str m) = some ed ∧
      decryptMessage (some envKey) ed = some buf ∧
      utf8ToString buf = m ∧
      buf = utf8Encode m ∧
      (∃ nonceBytes, b64decode ed.nonce.data = some nonceBytes ∧ nonceBytes.length = 12 ∧
        (∃ ct tag, b64decode ed.encrypted.data = some (ct ++ tag) ∧ tag.length = 16 ∧
          tag = authTag key nonceBytes ct ∧ buf = ctrXor key nonceBytes 0 ct)) := by
  have hnonceL : (randomBytesM 12 entropy).length = 12 := randomBytesM_length 12 entropy
  have hnonceB : ∀ b ∈ randomBytesM 12 entropy, b < 256 := randomBytesM_lt 12 entropy
  have hctB : ∀ b ∈ ctrXor key (randomBytesM 12 entropy) 0 (utf8Encode m), b < 256 :=
    ctrXor_lt key (randomBytesM 12 entropy) 0 (utf8Encode m) (utf8Encode_lt m)
  have htagB : ∀ b ∈ authTag key (randomBytesM 12 entropy)
      (ctrXor key (randomBytesM 12 entropy) 0 (utf8Encode m)), b < 256 :=
    authTag_lt _ _ _
  have henc : encryptMessage (some envKey) entropy (JsData.str m) =
      some { encrypted := ⟨b64encode (ctrXor key (randomBytesM 12 entropy) 0 (utf8Encode m) ++
               authTag key (randomBytesM 12 entropy)
                 (ctrXor key (randomBytesM 12 entropy) 0 (utf8Encode m)))⟩,
             nonce := ⟨b64encode (randomBytesM 12 entropy)⟩ } := by
    unfold encryptMessage
    rw [hk]
    dsimp only [toBuffer]
    rw [if_neg (by omega)]
  refine ⟨_, utf8Encode m, henc, ?_, utf8ToString_utf8Encode m, rfl, ?_⟩
  · unfold decryptMessage
    have hdec1 : b64decode (b64encode (ctrXor key (randomBytesM 12 entropy) 0 (utf8Encode m) ++
        authTag key (randomBytesM 12 entropy)
          (ctrXor key (randomBytesM 12 entropy) 0 (utf8Encode m)))) =
        some (ctrXor key (randomBytesM 12 entropy) 0 (utf8Encode m) ++
          authTag key (randomBytesM 12 entropy)
            (ctrXor key (randomBytesM 12 entropy) 0 (utf8Encode m))) := by
      apply b64decode_b64encode
      intro b hb
      rw [List.mem_append] at hb
      rcases hb with hb | hb
      · exact hctB b hb
      · exact htagB b hb
    have hdec2 : b64decode (b64encode (randomBytesM 12 entropy)) =
        some (randomBytesM 12 entropy) := b64decode_b64encode _ hnonceB
    dsimp only
    rw [hdec1, hdec2]
    dsimp only
    have hsplitLen : (ctrXor key (randomBytesM 12 entropy) 0 (utf8Encode m) ++
        authTag key (randomBytesM 12 entropy)
          (ctrXor key (randomBytesM 12 entropy) 0 (utf8Encode m))).length - 16 =
        (ctrXor key (randomBytesM 12 entropy) 0 (utf8Encode m)).length := by
      rw [List.length_append, authTag_length]
      omega
    rw [hsplitLen, List.drop_left, List.take_left, hk]
    dsimp only
    rw [if_neg (by omega), if_pos rfl]
    rw [ctrXor_involution]
  · refine ⟨randomBytesM 12 entropy, b64decode_b64encode _ hnonceB, hnonceL,
      ctrXor key (randomBytesM 12 entropy) 0 (utf8Encode m),
      authTag key (randomBytesM 12 entropy)
        (ctrXor key (randomBytesM 12 entropy) 0 (utf8Encode m)), ?_, authTag_length _ _ _,
      rfl, (ctrXor_involution key (randomBytesM 12 entropy) 0 (utf8Encode m)).symm⟩
    apply b64decode_b64encode
    intro b hb
    rw [List.mem_append] at hb
    rcases hb with hb | hb
    · exact hctB b hb
    · exact htagB b hb

/-- C9 witness: the roundtrip at the concrete 32-character key
`"0123456789abcdef0123456789abcdef"`, empty entropy and message `"hi"`. -/
theorem C9_witness :
    ∃ ed buf,
      encryptMessage (some "0123456789abcdef0123456789abcdef") [] (JsData.str "hi") = some ed ∧
      decryptMessage (some "0123456789abcdef0123456789abcdef") ed = some buf ∧
      utf8ToString buf = "hi" ∧
      buf = utf8Encode "hi" ∧
      (∃ nonceBytes, b64decode ed.nonce.data = some nonceBytes ∧ nonceBytes.length = 12 ∧
        (∃ ct tag, b64decode ed.encrypted.data = some (ct ++ tag) ∧ tag.length = 16 ∧
          tag = authTag (utf8Encode "0123456789abcdef0123456789abcdef") nonceBytes ct ∧
          buf = ctrXor (utf8Encode "0123456789abcdef0123456789abcdef") nonceBytes 0 ct)) :=
  C9_encrypt_decrypt_roundtrip "0123456789abcdef0123456789abcdef" [] "hi"
    (utf8Encode "0123456789abcdef0123456789abcdef") (by decide) (by decide)

/-- Auxiliary: `connectProfile` at the (only) preference `group`, as one
structure literal. -/
theorem connectProfile_group_eq (userId : String) (storedUsername : Option String)
    (groupJoinMethod : Option GroupJoinMethod) (customGroupCode : Option String) :
    connectProfile userId storedUsername Preference.group groupJoinMethod customGroupCode =
      { user_id := userId,
        username := jsOr storedUsername ("User_" ++ jsSubstring userId 0 5),
        preference := Preference.group,
        gender := "default",
        room_type := "group",
        group_code := if groupJoinMethod = some GroupJoinMethod.join ∧
            truthyStr customGroupCode = true then customGroupCode else none,
        group_join_method := groupJoinMethod } := by
  by_cases hc : groupJoinMethod = some GroupJoinMethod.join ∧ truthyStr customGroupCode = true
  · simp only [connectProfile, if_pos rfl, if_pos hc]
    simp
  · simp only [connectProfile, if_pos rfl, if_neg hc]
    simp

/-- C3 counterexample: with `preference = "group"` but no
`groupJoinMethod` supplied, the profile's `group_join_method` is
`undefined` and absent from the frame, although the claim requires it
exactly when the preference is `"group"`; and with `method = "join"` and
the supplied (but empty, hence falsy) code `""`, `group_code` is absent
although the claim requires it whenever a code is supplied. -/
theorem C3_counterexample_optional_fields :
    (connectProfile "u1" none Preference.group none none).group_join_method = none ∧
    ¬ (((connectProfile "u1" none Preference.group (some GroupJoinMethod.join)
          (some "")).group_code.isSome = true) ↔
        (some GroupJoinMethod.join = some GroupJoinMethod.join ∧
          (some "" : Option String).isSome = true)) := by
  refine ⟨by decide, by decide⟩

/-- C3 (amended): the `join_chat` frame carries `user_id`, `username`,
`preference`, `gender` and `room_type` (`"group"` iff the preference is
`"group"`, else `"couple"`); `group_join_method` equals the
`groupJoinMethod` argument, so it is included exactly when the preference
is `"group"` and a method was supplied; `group_code` is present iff
`groupJoinMethod` is `"join"` and `customGroupCode` is supplied and
non-empty, and then equals it. -/
theorem C3_join_frame_fields (userId : String) (storedUsername : Option String)
    (preference : Preference) (groupJoinMethod : Option GroupJoinMethod)
    (customGroupCode : Option String) :
    (connectJoinFrame userId storedUsername preference groupJoinMethod
        customGroupCode).event = "join_chat" ∧
    (connectJoinFrame userId storedUsername preference groupJoinMethod
        customGroupCode).data = FramePayload.joinChat
      (connectProfile userId storedUsername preference groupJoinMethod customGroupCode) ∧
    (connectProfile userId storedUsername preference groupJoinMethod
        customGroupCode).user_id = userId ∧
    (connectProfile userId storedUsername preference groupJoinMethod
        customGroupCode).username =
      jsOr storedUsername ("User_" ++ jsSubstring userId 0 5) ∧
    (connectProfile userId storedUsername preference groupJoinMethod
        customGroupCode).preference = preference ∧
    (connectProfile userId storedUsername preference groupJoinMethod
        customGroupCode).gender = "default" ∧
    (connectProfile userId storedUsername preference groupJoinMethod
        customGroupCode).room_type =
      (if preference = Preference.group then "group" else "couple") ∧
    (connectProfile userId storedUsername preference groupJoinMethod
        customGroupCode).group_join_method = groupJoinMethod ∧
    ((connectProfile userId storedUsername preference groupJoinMethod
        customGroupCode).group_code.isSome ↔
      (groupJoinMethod = some GroupJoinMethod.join ∧ truthyStr customGroupCode = true)) ∧
    ((connectProfile userId storedUsername preference groupJoinMethod
        customGroupCode).group_code.isSome →
      (connectProfile userId storedUsername preference groupJoinMethod
        customGroupCode).group_code = customGroupCode) := by
  cases preference
  refine ⟨rfl, rfl, by rw [connectProfile_group_eq], by rw [connectProfile_group_eq],
    by rw [connectProfile_group_eq], by rw [connectProfile_group_eq],
    by rw [connectProfile_group_eq]; simp, by rw [connectProfile_group_eq], ?_, ?_⟩
  · rw [connectProfile_group_eq]
    dsimp only
    by_cases hc : groupJoinMethod = some GroupJoinMethod.join ∧ truthyStr customGroupCode = true
    · rw [if_pos hc]
      simp only [iff_true_intro hc, iff_true]
      obtain ⟨-, ht⟩ := hc
      match customGroupCode with
      | some s => rfl
      | none => exact absurd ht (by simp [truthyStr])
    · rw [if_neg hc]
      simp [hc]
  · rw [connectProfile_group_eq]
    dsimp only
    by_cases hc : groupJoinMethod = some GroupJoinMethod.join ∧ truthyStr customGroupCode = true
    · rw [if_pos hc]
      exact fun _ => rfl
    · rw [if_neg hc]
      simp

/-- Auxiliary: `handleChatStarted` on a truthy `groupCode`, as one
structure literal. -/
theorem handleChatStarted_truthy_eq (st : ChatState) (dataGroupCode : Option String)
    (newId : String) (now : Nat) (ht : truthyStr dataGroupCode = true) :
    handleChatStarted st dataGroupCode newId now =
      { st with
        connected := true,
        connecting := false,
        partnerDisconnected := false,
        isGroupChat := true,
        groupCode := dataGroupCode,
        messages := [⟨newId, "system", false, none, some st.messageCounter,
          MessageRole.assistant, now,
          MessageBody.notification
            ("You've joined a group chat. Group code: " ++ jsOr dataGroupCode "N/A")⟩],
        messageCounter := st.messageCounter + 1 } := by
  simp only [handleChatStarted, if_pos ht]

/-- Auxiliary: `handleChatStarted` on an absent or empty `groupCode`, as
one structure literal. -/
theorem handleChatStarted_falsy_eq (st : ChatState) (dataGroupCode : Option String)
    (newId : String) (now : Nat) (ht : ¬ truthyStr dataGroupCode = true) :
    handleChatStarted st dataGroupCode newId now =
      { st with
        connected := true,
        connecting := false,
        partnerDisconnected := false,
        isGroupChat := false,
        messages := [⟨newId, "system", false, none, some st.messageCounter,
          MessageRole.assistant, now,
          MessageBody.notification
            "You're now chatting with a random stranger. Say Yaps!"⟩],
        messageCounter := st.messageCounter + 1 } := by
  simp only [handleChatStarted, if_neg ht]

/-- C5 counterexample: a `chat_started` event whose `groupCode` field is
present but empty (`""` is falsy) takes the stranger-chat branch:
`isGroupChat` is set to `false`, not `true` as the claim requires for a
present `groupCode`. -/
theorem C5_counterexample_empty_group_code :
    (some "" : Option String).isSome = true ∧
    (handleChatStarted sampleStateOpen (some "") "id1" 5).isGroupChat = false ∧
    (handleChatStarted sampleStateOpen (some "") "id1" 5).groupCode = none := by
  refine ⟨by decide, by decide, by decide⟩

/-- C5 (amended): `chat_started` sets `connected := true`,
`connecting := false` and clears `partnerDisconnected`; when
`data.groupCode` is present and non-empty it sets `isGroupChat := true`,
stores the code and replaces the message list with the single
group-notification naming that code; when the field is absent or empty it
sets `isGroupChat := false` and replaces the list with the single
stranger-chat notification. -/
theorem C5_chat_started (st : ChatState) (dataGroupCode : Option String)
    (newId : String) (now : Nat) :
    (handleChatStarted st dataGroupCode newId now).connected = true ∧
    (handleChatStarted st dataGroupCode newId now).connecting = false ∧
    (handleChatStarted st dataGroupCode newId now).partnerDisconnected = false ∧
    (truthyStr dataGroupCode = true →
      (handleChatStarted st dataGroupCode newId now).isGroupChat = true ∧
      (handleChatStarted st dataGroupCode newId now).groupCode = dataGroupCode ∧
      ∃ code, dataGroupCode = some code ∧
        (handleChatStarted st dataGroupCode newId now).messages =
          [⟨newId, "system", false, none, some st.messageCounter, MessageRole.assistant, now,
            MessageBody.notification
              ("You've joined a group chat. Group code: " ++ code)⟩]) ∧
    (truthyStr dataGroupCode = false →
      (handleChatStarted st dataGroupCode newId now).isGroupChat = false ∧
      (handleChatStarted st dataGroupCode newId now).messages =
        [⟨newId, "system", false, none, some st.messageCounter, MessageRole.assistant, now,
          MessageBody.notification
            "You're now chatting with a random stranger. Say Yaps!"⟩]) := by
  by_cases ht : truthyStr dataGroupCode = true
  · rw [handleChatStarted_truthy_eq st dataGroupCode newId now ht]
    refine ⟨rfl, rfl, rfl, fun _ => ⟨rfl, rfl, ?_⟩, fun hf => absurd ht (by simp [hf])⟩
    match dataGroupCode with
    | some code =>
      refine ⟨code, rfl, ?_⟩
      have hcode : code ≠ "" := by
        simpa [truthyStr] using ht
      simp [jsOr, hcode]
    | none => exact absurd ht (by simp [truthyStr])
  · rw [handleChatStarted_falsy_eq st dataGroupCode newId now ht]
    exact ⟨rfl, rfl, rfl, fun htr => absurd htr ht, fun _ => ⟨rfl, rfl⟩⟩

/-- C5 witness: the amended statement at a concrete `chat_started` with
`groupCode = "Ab12Cd"`. -/
theorem C5_witness :
    (handleChatStarted sampleStateOpen (some "Ab12Cd") "id1" 5).connected = true ∧
    (handleChatStarted sampleStateOpen (some "Ab12Cd") "id1" 5).connecting = false ∧
    (handleChatStarted sampleStateOpen (some "Ab12Cd") "id1" 5).partnerDisconnected = false ∧
    (truthyStr (some "Ab12Cd") = true →
      (handleChatStarted sampleStateOpen (some "Ab12Cd") "id1" 5).isGroupChat = true ∧
      (handleChatStarted sampleStateOpen (some "Ab12Cd") "id1" 5).groupCode = some "Ab12Cd" ∧
      ∃ code, (some "Ab12Cd" : Option String) = some code ∧
        (handleChatStarted sampleStateOpen (some "Ab12Cd") "id1" 5).messages =
          [⟨"id1", "system", false, none, some sampleStateOpen.messageCounter,
            MessageRole.assistant, 5,
            MessageBody.notification
              ("You've joined a group chat. Group code: " ++ code)⟩]) ∧
    (truthyStr (some "Ab12Cd") = false →
      (handleChatStarted sampleStateOpen (some "Ab12Cd") "id1" 5).isGroupChat = false ∧
      (handleChatStarted sampleStateOpen (some "Ab12Cd") "id1" 5).messages =
        [⟨"id1", "system", false, none, some sampleStateOpen.messageCounter,
          MessageRole.assistant, 5,
          MessageBody.notification
            "You're now chatting with a random stranger. Say Yaps!"⟩]) :=
  C5_chat_started sampleStateOpen (some "Ab12Cd") "id1" 5

/-- Auxiliary: truthiness coincides with presence for an optional string
that is not `some ""`. -/
theorem truthyStr_eq_isSome {g : Option String} (hg : g ≠ some "") :
    truthyStr g = g.isSome := by
  match g with
  | none => rfl
  | some s =>
    have hs : s ≠ "" := fun h => hg (by rw [h])
    simp [truthyStr, hs]

/-- C6: when connected, `deleteMessage` sends one `delete_message` frame
with keys `messageId`, `chatId` (the current group code) and
`isGroupChat` (true iff a group code is set — the hook only ever stores
truthy codes, hypothesis `hg`), and drops exactly the local messages with
that id, keeping every other message in order; `message_deleted` removes
exactly the messages whose id equals the event's `messageId`. -/
theorem C6_delete_message (st : ChatState) (messageId dataMessageId : String)
    (hg : st.groupCode ≠ some "") (hs : st.socket ≠ none) (hc : st.connected = true) :
    (deleteMessage st messageId).2 =
      [⟨"delete_message", FramePayload.deleteMsg
        { messageId := messageId,
          chatId := st.groupCode,
          isGroupChat := st.groupCode.isSome }⟩] ∧
    ((deleteMessage st messageId).1.messages).Sublist st.messages ∧
    (∀ m, m ∈ (deleteMessage st messageId).1.messages ↔
      (m ∈ st.messages ∧ m.id ≠ messageId)) ∧
    ((handleMessageDeleted st dataMessageId).messages).Sublist st.messages ∧
    (∀ m, m ∈ (handleMessageDeleted st dataMessageId).messages ↔
      (m ∈ st.messages ∧ m.id ≠ dataMessageId)) := by
  have hguard : ¬ (st.socket = none ∨ st.connected = false) := by
    rintro (h | h)
    · exact hs h
    · rw [hc] at h
      cases h
  unfold deleteMessage handleMessageDeleted
  rw [if_neg hguard]
  refine ⟨?_, ?_, ?_, ?_, ?_⟩
  · rw [truthyStr_eq_isSome hg]
  · exact List.filter_sublist _
  · intro m
    simp [List.mem_filter, bne_iff_ne]
  · exact List.filter_sublist _
  · intro m
    simp [List.mem_filter, bne_iff_ne]

/-- C6 witness: deleting message `"a"` from a connected two-message state
and receiving `message_deleted{messageId:"b"}` there. -/
theorem C6_witness :
    (deleteMessage sampleStateMsgs "a").2 =
      [⟨"delete_message", FramePayload.deleteMsg
        { messageId := "a",
          chatId := sampleStateMsgs.groupCode,
          isGroupChat := sampleStateMsgs.groupCode.isSome }⟩] ∧
    ((deleteMessage sampleStateMsgs "a").1.messages).Sublist sampleStateMsgs.messages ∧
    (∀ m, m ∈ (deleteMessage sampleStateMsgs "a").1.messages ↔
      (m ∈ sampleStateMsgs.messages ∧ m.id ≠ "a")) ∧
    ((handleMessageDeleted sampleStateMsgs "b").messages).Sublist sampleStateMsgs.messages ∧
    (∀ m, m ∈ (handleMessageDeleted sampleStateMsgs "b").messages ↔
      (m ∈ sampleStateMsgs.messages ∧ m.id ≠ "b")) :=
  C6_delete_message sampleStateMsgs "a" "b" (by decide) (by decide) (by decide)

/-- C7: each signaling sender returns `false` and sends nothing when the
socket is absent or not OPEN; on an OPEN socket it sends exactly one
frame whose data carries `sender_id` (the stored user id, hypothesis
`huid`), `target_id`, `is_group_chat` and `group_code` as given, plus
respectively the `offer`, `answer` or `candidate` field (none for
`sendEndCall`), and returns `true`. -/
theorem C7_signaling_frames (ws : WSocket)
    (uid randTail offer answer candidate targetId : String)
    (isGroupChat : Bool) (groupCode : Option String) (huid : uid ≠ "") :
    (∀ stored : Option String,
      sendOffer none stored randTail offer targetId isGroupChat groupCode =
        (false, stored, []) ∧
      sendAnswer none stored randTail answer targetId isGroupChat groupCode =
        (false, stored, []) ∧
      sendIceCandidate none stored randTail candidate targetId isGroupChat groupCode =
        (false, stored, []) ∧
      sendEndCall none stored randTail targetId isGroupChat groupCode =
        (false, stored, [])) ∧
    (ws.readyState ≠ ReadyState.opened →
      ∀ stored : Option String,
      sendOffer (some ws) stored randTail offer targetId isGroupChat groupCode =
        (false, stored, []) ∧
      sendAnswer (some ws) stored randTail answer targetId isGroupChat groupCode =
        (false, stored, []) ∧
      sendIceCandidate (some ws) stored randTail candidate targetId isGroupChat groupCode =
        (false, stored, []) ∧
      sendEndCall (some ws) stored randTail targetId isGroupChat groupCode =
        (false, stored, [])) ∧
    (ws.readyState = ReadyState.opened →
      sendOffer (some ws) (some uid) randTail offer targetId isGroupChat groupCode =
        (true, some uid,
          [⟨"webrtc_offer", FramePayload.webrtc
            ⟨uid, some targetId, isGroupChat, groupCode, some offer, none, none⟩⟩]) ∧
      sendAnswer (some ws) (some uid) randTail answer targetId isGroupChat groupCode =
        (true, some uid,
          [⟨"webrtc_answer", FramePayload.webrtc
            ⟨uid, some targetId, isGroupChat, groupCode, none, some answer, none⟩⟩]) ∧
      sendIceCandidate (some ws) (some uid) randTail candidate targetId isGroupChat groupCode =
        (true, some uid,
          [⟨"webrtc_ice_candidate", FramePayload.webrtc
            ⟨uid, some targetId, isGroupChat, groupCode, none, none, some candidate⟩⟩]) ∧
      sendEndCall (some ws) (some uid) randTail targetId isGroupChat groupCode =
        (true, some uid,
          [⟨"webrtc_end_call", FramePayload.webrtc
            ⟨uid, some targetId, isGroupChat, groupCode, none, none, none⟩⟩])) := by
  refine ⟨fun stored => ⟨rfl, rfl, rfl, rfl⟩, ?_, ?_⟩
  · intro hrs stored
    simp [sendOffer, sendAnswer, sendIceCandidate, sendEndCall, hrs]
  · intro hrs
    simp [sendOffer, sendAnswer, sendIceCandidate, sendEndCall, getCurrentUserId, hrs, huid]

/-- C7 witness: the four senders at an OPEN socket with stored user id
`"u1"`, and at a CLOSED socket. -/
theorem C7_witness :
    ((∀ stored : Option String,
      sendOffer none stored "r" "o" "t" false none = (false, stored, []) ∧
      sendAnswer none stored "r" "a" "t" false none = (false, stored, []) ∧
      sendIceCandidate none stored "r" "c" "t" false none = (false, stored, []) ∧
      sendEndCall none stored "r" "t" false none = (false, stored, [])) ∧
    ((⟨ReadyState.opened⟩ : WSocket).readyState ≠ ReadyState.opened →
      ∀ stored : Option String,
      sendOffer (some ⟨ReadyState.opened⟩) stored "r" "o" "t" false none =
        (false, stored, []) ∧
      sendAnswer (some ⟨ReadyState.opened⟩) stored "r" "a" "t" false none =
        (false, stored, []) ∧
      sendIceCandidate (some ⟨ReadyState.opened⟩) stored "r" "c" "t" false none =
        (false, stored, []) ∧
      sendEndCall (some ⟨ReadyState.opened⟩) stored "r" "t" false none =
        (false, stored, [])) ∧
    ((⟨ReadyState.opened⟩ : WSocket).readyState = ReadyState.opened →
      sendOffer (some ⟨ReadyState.opened⟩) (some "u1") "r" "o" "t" false none =
        (true, some "u1",
          [⟨"webrtc_offer", FramePayload.webrtc
            ⟨"u1", some "t", false, none, some "o", none, none⟩⟩]) ∧
      sendAnswer (some ⟨ReadyState.opened⟩) (some "u1") "r" "a" "t" false none =
        (true, some "u1",
          [⟨"webrtc_answer", FramePayload.webrtc
            ⟨"u1", some "t", false, none, none, some "a", none⟩⟩]) ∧
      sendIceCandidate (some ⟨ReadyState.opened⟩) (some "u1") "r" "c" "t" false none =
        (true, some "u1",
          [⟨"webrtc_ice_candidate", FramePayload.webrtc
            ⟨"u1", some "t", false, none, none, none, some "c"⟩⟩]) ∧
      sendEndCall (some ⟨ReadyState.opened⟩) (some "u1") "r" "t" false none =
        (true, some "u1",
          [⟨"webrtc_end_call", FramePayload.webrtc
            ⟨"u1", some "t", false, none, none, none, none⟩⟩]))) :=
  C7_signaling_frames ⟨ReadyState.opened⟩ "u1" "r" "o" "a" "c" "t" false none (by decide)

/-- Auxiliary: with a valid 32-byte key, `encryptMessage` always succeeds
and returns the envelope computed from the keystream and tag. -/
theorem encryptMessage_valid (env : Option String) (entropy : List Nat) (msg : JsData)
    (key : List Nat) (hk : getEncryptionKey env = some key) (hl : key.length = 32) :
    encryptMessage env entropy msg =
      some ⟨⟨b64encode (ctrXor key (randomBytesM 12 entropy) 0 (toBuffer msg) ++
          authTag key (randomBytesM 12 entropy)
            (ctrXor key (randomBytesM 12 entropy) 0 (toBuffer msg)))⟩,
        ⟨b64encode (randomBytesM 12 entropy)⟩⟩ := by
  unfold encryptMessage
  rw [hk]
  dsimp only
  rw [if_neg (by omega)]

/-- C10: when the envelope of a `receive_message` event fails to decrypt,
`handleReceiveMessage` swallows the exception and appends exactly one
fixed system notification, increments the counter, and leaves every
stored message unchanged; no partial chat message is added. -/
theorem C10_decrypt_failure_notification (cryptoKeyEnv : Option String) (st : ChatState)
    (data : ReceiveMessageData) (newId : String) (now : Nat)
    (hfail : decryptMessage cryptoKeyEnv data.message = none) :
    handleReceiveMessage cryptoKeyEnv st data newId now =
      { st with
        messages := st.messages ++ [⟨newId, "system", false, none, some st.messageCounter,
          MessageRole.assistant, now,
          MessageBody.notification
            "Could not decrypt message. Encryption key may be invalid."⟩],
        messageCounter := st.messageCounter + 1 } := by
  unfold handleReceiveMessage
  rw [hfail]

/-- C10 witness: a `receive_message` with an undecryptable envelope (no
`CRYPTO_KEY` in the environment) at a concrete state. -/
theorem C10_witness :
    handleReceiveMessage none sampleStateOpen ⟨"s", ⟨"", ""⟩, none, none⟩ "id" 3 =
      { sampleStateOpen with
        messages := sampleStateOpen.messages ++ [⟨"id", "system", false, none,
          some sampleStateOpen.messageCounter, MessageRole.assistant, 3,
          MessageBody.notification
            "Could not decrypt message. Encryption key may be invalid."⟩],
        messageCounter := sampleStateOpen.messageCounter + 1 } :=
  C10_decrypt_failure_notification none sampleStateOpen ⟨"s", ⟨"", ""⟩, none, none⟩ "id" 3
    (by decide)

/-- C4 counterexample: in the reachable window where the transport is
already CLOSED but `connected` is still `true`, `sendMessage` resolves
yet emits no `send_message` frame (the inner `sendJsonMessage` checks
`readyState`); and a supplied empty `replyToId` is falsy, so
`reply_to_id` is omitted rather than carrying `Number("")`. -/
theorem C4_counterexample_closed_socket_and_empty_reply :
    (sampleStateClosedConn.socket ≠ none ∧ sampleStateClosedConn.connected = true ∧
      ((sendMessage (some "0123456789abcdef0123456789abcdef") [] sampleStateClosedConn "u1"
          (JsData.str "hi") none "id" 7).2.2.filter
        fun f => f.event == "send_message").length = 0 ∧
      (sendMessage (some "0123456789abcdef0123456789abcdef") [] sampleStateClosedConn "u1"
          (JsData.str "hi") none "id" 7).1 = SendResult.resolved) ∧
    ((sendMessage (some "0123456789abcdef0123456789abcdef") [] sampleStateOpen "u1"
        (JsData.str "hi") (some "") "id" 7).2.2.length = 1 ∧
      ((sendMessage (some "0123456789abcdef0123456789abcdef") [] sampleStateOpen "u1"
          (JsData.str "hi") (some "") "id" 7).2.2.all fun f =>
        f.event == "send_message" &&
        match f.data with
        | FramePayload.sendMsg d => d.reply_to_id == none
        | _ => false) = true) := by
  refine ⟨⟨by decide, by decide, by decide, by decide⟩, by decide, by decide⟩

/-- C4 (amended): with the socket absent or `connected = false`,
`sendMessage` rejects, sends nothing and leaves the state (messages and
counter included) unchanged.  When connected over an OPEN socket and the
key is valid, a string send emits exactly one `send_message` frame whose
data is `{message, is_group_chat, group_code, reply_to_id}` with
`reply_to_id` the numeric conversion of `replyToId`, omitted when
`replyToId` is absent or empty; any ≥ 8-byte buffer send also emits
exactly one `send_message` frame. -/
theorem C4_send_message_frames (env : Option String) (entropy : List Nat) (st : ChatState)
    (userId : String) (replyToId : Option String) (newId : String) (now : Nat)
    (key : List Nat) (hk : getEncryptionKey env = some key) (hl : key.length = 32) :
    (∀ content, (st.socket = none ∨ st.connected = false) →
      sendMessage env entropy st userId content replyToId newId now =
        (SendResult.rejected, st, [])) ∧
    (∀ ws, st.socket = some ws → st.connected = true → ws.readyState = ReadyState.opened →
      (∀ s, ∃ ed, encryptMessage env entropy (JsData.str s) = some ed ∧
        (sendMessage env entropy st userId (JsData.str s) replyToId newId now).2.2 =
          [⟨"send_message", FramePayload.sendMsg
            { message := ed,
              is_group_chat := st.isGroupChat,
              group_code := st.groupCode,
              reply_to_id := match replyToId with
                | some r => if r ≠ "" then some (jsNumber r) else none
                | none => none }⟩] ∧
        (sendMessage env entropy st userId (JsData.str s) replyToId newId now).1 =
          SendResult.resolved) ∧
      (∀ b, 8 ≤ b.length →
        ((sendMessage env entropy st userId (JsData.buf b) replyToId newId now).2.2.filter
          fun f => f.event == "send_message").length = 1)) := by
  refine ⟨?_, ?_⟩
  · intro content h
    unfold sendMessage
    rw [if_pos h]
  · intro ws hws hconn hrs
    have hguard : ¬ (st.socket = none ∨ st.connected = false) := by
      rintro (h | h)
      · rw [hws] at h
        cases h
      · rw [hconn] at h
        cases h
    constructor
    · intro s
      refine ⟨_, encryptMessage_valid env entropy (JsData.str s) key hk hl, ?_, ?_⟩
      · unfold sendMessage
        rw [if_neg hguard]
        dsimp only
        unfold sendMessageBody
        rw [encryptMessage_valid env entropy (JsData.str s) key hk hl]
        dsimp only
        rw [hws]
        simp [sendJsonMessage, hrs]
      · unfold sendMessage
        rw [if_neg hguard]
        dsimp only
        unfold sendMessageBody
        rw [encryptMessage_valid env entropy (JsData.str s) key hk hl]
    · intro b hb
      unfold sendMessage
      rw [if_neg hguard]
      dsimp only
      rw [if_neg (by omega)]
      by_cases him : isProbablyImage b = true
      · rw [if_neg (by simp [him])]
        unfold sendMessageBody
        rw [encryptMessage_valid env entropy (JsData.buf b) key hk hl]
        dsimp only
        rw [hws]
        simp [sendJsonMessage, hrs]
      · rw [if_pos (by simp [him])]
        unfold sendMessageBody
        rw [encryptMessage_valid env entropy (JsData.str (utf8ToString b)) key hk hl]
        dsimp only
        rw [hws]
        simp [sendJsonMessage, hrs]

/-- C4 witness: the amended statement at a concrete connected state, key
and reply id. -/
theorem C4_witness :
    (∀ content, (sampleStateOpen.socket = none ∨ sampleStateOpen.connected = false) →
      sendMessage (some "0123456789abcdef0123456789abcdef") [] sampleStateOpen "u1" content
        (some "12") "id" 7 = (SendResult.rejected, sampleStateOpen, [])) ∧
    (∀ ws, sampleStateOpen.socket = some ws → sampleStateOpen.connected = true →
      ws.readyState = ReadyState.opened →
      (∀ s, ∃ ed,
        encryptMessage (some "0123456789abcdef0123456789abcdef") [] (JsData.str s) = some ed ∧
        (sendMessage (some "0123456789abcdef0123456789abcdef") [] sampleStateOpen "u1"
            (JsData.str s) (some "12") "id" 7).2.2 =
          [⟨"send_message", FramePayload.sendMsg
            { message := ed,
              is_group_chat := sampleStateOpen.isGroupChat,
              group_code := sampleStateOpen.groupCode,
              reply_to_id := match (some "12" : Option String) with
                | some r => if r ≠ "" then some (jsNumber r) else none
                | none => none }⟩] ∧
        (sendMessage (some "0123456789abcdef0123456789abcdef") [] sampleStateOpen "u1"
            (JsData.str s) (some "12") "id" 7).1 = SendResult.resolved) ∧
      (∀ b, 8 ≤ b.length →
        ((sendMessage (some "0123456789abcdef0123456789abcdef") [] sampleStateOpen "u1"
            (JsData.buf b) (some "12") "id" 7).2.2.filter
          fun f => f.event == "send_message").length = 1)) :=
  C4_send_message_frames (some "0123456789abcdef0123456789abcdef") [] sampleStateOpen "u1"
    (some "12") "id" 7 (utf8Encode "0123456789abcdef0123456789abcdef") (by decide) (by decide)

/-- C8 counterexample: a two-byte buffer beginning with the JPEG magic
`FF D8` makes `new Uint8Array(content, 0, 8)` throw (fewer than 8 bytes),
so `sendMessage` rejects with no `file_sending_start`, `send_message` or
`file_sending_end` frame at all, contradicting the claimed frame
sequence for buffers beginning with an image magic number. -/
theorem C8_counterexample_short_jpeg_buffer :
    sendMessage (some "0123456789abcdef0123456789abcdef") [] sampleStateOpen "u1"
      (JsData.buf [0xFF, 0xD8]) none "id" 7 =
      (SendResult.rejected, sampleStateOpen, []) := by
  decide

/-- C8 (amended): for a connected OPEN socket, a valid key and a buffer
of at least 8 bytes (shorter buffers throw in the 8-byte header read and
reject with no frames), a buffer beginning with the JPEG (`FF D8`), PNG
(`89 50 4E 47`) or GIF (`47 49 46 38`) magic emits `file_sending_start`,
then `send_message`, then `file_sending_end`, the two file frames
carrying the same `file_id`; a buffer not beginning with one of those is
decoded as UTF-8 and sent as a text message with no file frames. -/
theorem C8_image_and_text_paths (env : Option String) (entropy : List Nat) (st : ChatState)
    (userId : String) (replyToId : Option String) (newId : String) (now : Nat)
    (key : List Nat) (b : List Nat) (ws : WSocket)
    (hk : getEncryptionKey env = some key) (hl : key.length = 32)
    (hws : st.socket = some ws) (hconn : st.connected = true)
    (hrs : ws.readyState = ReadyState.opened) (hb : 8 ≤ b.length) :
    (isProbablyImage b = true →
      ∃ ed, encryptMessage env entropy (JsData.buf b) = some ed ∧
        (sendMessage env entropy st userId (JsData.buf b) replyToId newId now).2.2 =
          [⟨"file_sending_start", FramePayload.fileSendingStart
              ⟨"file-" ++ toString now, st.isGroupChat, st.groupCode⟩⟩,
           ⟨"send_message", FramePayload.sendMsg
              { message := ed,
                is_group_chat := st.isGroupChat,
                group_code := st.groupCode,
                reply_to_id := match replyToId with
                  | some r => if r ≠ "" then some (jsNumber r) else none
                  | none => none }⟩,
           ⟨"file_sending_end", FramePayload.fileSendingEnd
              ⟨"file-" ++ toString now, st.isGroupChat, st.groupCode⟩⟩]) ∧
    (isProbablyImage b = false →
      ∃ ed, encryptMessage env entropy (JsData.str (utf8ToString b)) = some ed ∧
        (sendMessage env entropy st userId (JsData.buf b) replyToId newId now).2.2 =
          [⟨"send_message", FramePayload.sendMsg
              { message := ed,
                is_group_chat := st.isGroupChat,
                group_code := st.groupCode,
                reply_to_id := match replyToId with
                  | some r => if r ≠ "" then some (jsNumber r) else none
                  | none => none }⟩] ∧
        (sendMessage env entropy st userId (JsData.buf b) replyToId newId now).2.1.messages =
          st.messages ++ [⟨newId, userId, true, replyToId, some st.messageCounter,
            MessageRole.user, now, MessageBody.text (utf8ToString b)⟩]) := by
  have hguard : ¬ (st.socket = none ∨ st.connected = false) := by
    rintro (h | h)
    · rw [hws] at h
      cases h
    · rw [hconn] at h
      cases h
  constructor
  · intro him
    refine ⟨_, encryptMessage_valid env entropy (JsData.buf b) key hk hl, ?_⟩
    unfold sendMessage
    rw [if_neg hguard]
    dsimp only
    rw [if_neg (by omega), if_neg (by simp [him])]
    unfold sendMessageBody
    rw [encryptMessage_valid env entropy (JsData.buf b) key hk hl]
    dsimp only
    rw [hws]
    simp [sendJsonMessage, hrs]
  · intro him
    refine ⟨_, encryptMessage_valid env entropy (JsData.str (utf8ToString b)) key hk hl, ?_, ?_⟩
    · unfold sendMessage
      rw [if_neg hguard]
      dsimp only
      rw [if_neg (by omega), if_pos (by simp [him])]
      unfold sendMessageBody
      rw [encryptMessage_valid env entropy (JsData.str (utf8ToString b)) key hk hl]
      dsimp only
      rw [hws]
      simp [sendJsonMessage, hrs]
    · unfold sendMessage
      rw [if_neg hguard]
      dsimp only
      rw [if_neg (by omega), if_pos (by simp [him])]
      unfold sendMessageBody
      rw [encryptMessage_valid env entropy (JsData.str (utf8ToString b)) key hk hl]
      dsimp only
      cases replyToId <;> simp

/-- C8 witness: the amended statement at an 8-byte JPEG-magic buffer on a
concrete connected state. -/
theorem C8_witness :
    (isProbablyImage [0xFF, 0xD8, 0, 0, 0, 0, 0, 0] = true →
      ∃ ed, encryptMessage (some "0123456789abcdef0123456789abcdef") []
          (JsData.buf [0xFF, 0xD8, 0, 0, 0, 0, 0, 0]) = some ed ∧
        (sendMessage (some "0123456789abcdef0123456789abcdef") [] sampleStateOpen "u1"
            (JsData.buf [0xFF, 0xD8, 0, 0, 0, 0, 0, 0]) none "id" 7).2.2 =
          [⟨"file_sending_start", FramePayload.fileSendingStart
              ⟨"file-" ++ toString 7, sampleStateOpen.isGroupChat, sampleStateOpen.groupCode⟩⟩,
           ⟨"send_message", FramePayload.sendMsg
              { message := ed,
                is_group_chat := sampleStateOpen.isGroupChat,
                group_code := sampleStateOpen.groupCode,
                reply_to_id := match (none : Option String) with
                  | some r => if r ≠ "" then some (jsNumber r) else none
                  | none => none }⟩,
           ⟨"file_sending_end", FramePayload.fileSendingEnd
              ⟨"file-" ++ toString 7, sampleStateOpen.isGroupChat,
                sampleStateOpen.groupCode⟩⟩]) ∧
    (isProbablyImage [0xFF, 0xD8, 0, 0, 0, 0, 0, 0] = false →
      ∃ ed, encryptMessage (some "0123456789abcdef0123456789abcdef") []
          (JsData.str (utf8ToString [0xFF, 0xD8, 0, 0, 0, 0, 0, 0])) = some ed ∧
        (sendMessage (some "0123456789abcdef0123456789abcdef") [] sampleStateOpen "u1"
            (JsData.buf [0xFF, 0xD8, 0, 0, 0, 0, 0, 0]) none "id" 7).2.2 =
          [⟨"send_message", FramePayload.sendMsg
              { message := ed,
                is_group_chat := sampleStateOpen.isGroupChat,
                group_code := sampleStateOpen.groupCode,
                reply_to_id := match (none : Option String) with
                  | some r => if r ≠ "" then some (jsNumber r) else none
                  | none => none }⟩] ∧
        (sendMessage (some "0123456789abcdef0123456789abcdef") [] sampleStateOpen "u1"
            (JsData.buf [0xFF, 0xD8, 0, 0, 0, 0, 0, 0]) none "id" 7).2.1.messages =
          sampleStateOpen.messages ++ [⟨"id", "u1", true, none,
            some sampleStateOpen.messageCounter, MessageRole.user, 7,
            MessageBody.text (utf8ToString [0xFF, 0xD8, 0, 0, 0, 0, 0, 0])⟩]) :=
  C8_image_and_text_paths (some "0123456789abcdef0123456789abcdef") [] sampleStateOpen "u1"
    none "id" 7 (utf8Encode "0123456789abcdef0123456789abcdef")
    [0xFF, 0xD8, 0, 0, 0, 0, 0, 0] ⟨ReadyState.opened⟩
    (by decide) (by decide) (by decide) (by decide) (by decide) (by decide)

/-- C3 witness: the amended statement at a concrete call supplying the
method `join` and a non-empty code. -/
theorem C3_witness :
    (connectJoinFrame "user-42" none Preference.group (some GroupJoinMethod.join)
        (some "Ab12Cd")).event = "join_chat" ∧
    (connectJoinFrame "user-42" none Preference.group (some GroupJoinMethod.join)
        (some "Ab12Cd")).data = FramePayload.joinChat
      (connectProfile "user-42" none Preference.group (some GroupJoinMethod.join)
        (some "Ab12Cd")) ∧
    (connectProfile "user-42" none Preference.group (some GroupJoinMethod.join)
        (some "Ab12Cd")).user_id = "user-42" ∧
    (connectProfile "user-42" none Preference.group (some GroupJoinMethod.join)
        (some "Ab12Cd")).username =
      jsOr none ("User_" ++ jsSubstring "user-42" 0 5) ∧
    (connectProfile "user-42" none Preference.group (some GroupJoinMethod.join)
        (some "Ab12Cd")).preference = Preference.group ∧
    (connectProfile "user-42" none Preference.group (some GroupJoinMethod.join)
        (some "Ab12Cd")).gender = "default" ∧
    (connectProfile "user-42" none Preference.group (some GroupJoinMethod.join)
        (some "Ab12Cd")).room_type =
      (if Preference.group = Preference.group then "group" else "couple") ∧
    (connectProfile "user-42" none Preference.group (some GroupJoinMethod.join)
        (some "Ab12Cd")).group_join_method = some GroupJoinMethod.join ∧
    ((connectProfile "user-42" none Preference.group (some GroupJoinMethod.join)
        (some "Ab12Cd")).group_code.isSome ↔
      (some GroupJoinMethod.join = some GroupJoinMethod.join ∧
        truthyStr (some "Ab12Cd") = true)) ∧
    ((connectProfile "user-42" none Preference.group (some GroupJoinMethod.join)
        (some "Ab12Cd")).group_code.isSome →
      (connectProfile "user-42" none Preference.group (some GroupJoinMethod.join)
        (some "Ab12Cd")).group_code = some "Ab12Cd") :=
  C3_join_frame_fields "user-42" none Preference.group (some GroupJoinMethod.join)
    (some "Ab12Cd")

end YapsChat
